import Mathlib

/-!
Verification of the uspsaddr library (Go) against its specification.

The development shallowly embeds the two interesting components:
  * the OAuth2 token manager (token.go): cached token state, the fast-path
    check of getToken, and the double-checked refresh in refreshToken, with
    network I/O modelled by an explicit outcome parameter and a counter of
    network calls;
  * the address validation client (client.go): input validation and request
    parameter construction in ValidateAddress, and the pure translators
    convertResponse / convertAddress / convertError / generateUserMessage,
    plus the public Error type of types.go.

Time is modelled in seconds as an integer; Go pointer-typed optional fields
become Option values; Go's (value, error) returns become Except values.
-/

namespace USPSAddr

/-! ## Token manager (token.go) -/

/-- Mutable state of the token manager guarded by its lock:
the cached access token and its (buffer-adjusted) expiry instant. -/
structure TMState where
  accessToken : String
  expiresAt : Int
  deriving Repr, DecidableEq

/-- Refresh buffer of 5 minutes, in seconds (token.go line 45). -/
def refreshBuffer : Int := 5 * 60

/-- OAuth2 token response body (token.go, tokenResponse). A JSON body that
omits expires_in decodes to 0, as in Go. -/
structure TokenResponse where
  access_token : String
  token_type : String
  expires_in : Int
  deriving Repr, DecidableEq

/-- Result of decoding the body of the token endpoint's HTTP response. -/
inductive BodyDecode
  | malformed
  | decoded (tr : TokenResponse)
  deriving Repr, DecidableEq

/-- Outcome of the HTTP POST to the token endpoint: a transport-level
failure, or a status code together with the decode of the body. -/
inductive HttpResult
  | netErr
  | resp (status : Nat) (body : BodyDecode)
  deriving Repr, DecidableEq

/-- Result of one getToken / refreshToken invocation: the token manager
state after the call, the returned token or error, and how many network
requests to the token endpoint the call performed. -/
structure TokenResult where
  state : TMState
  result : Except String String
  netCalls : Nat
  deriving Repr

/-- Shallow embedding of tokenManager.refreshToken (token.go lines 65-122).
Runs under the exclusive lock: first the double-check of the cached token,
then, only if the cache is still invalid, one network request whose outcome
is the parameter oc. On any failure the state is returned unchanged; on
success both fields are replaced together. -/
def refreshToken (s : TMState) (now : Int) (oc : HttpResult) : TokenResult :=
  if s.accessToken ≠ "" ∧ now < s.expiresAt then
    ⟨s, .ok s.accessToken, 0⟩
  else
    match oc with
    | .netErr => ⟨s, .error "token request failed", 1⟩
    | .resp status body =>
      if status ≠ 200 then
        ⟨s, .error ("token request failed with status " ++ toString status), 1⟩
      else
        match body with
        | .malformed => ⟨s, .error "failed to decode token response", 1⟩
        | .decoded tr =>
          if tr.access_token = "" then
            ⟨s, .error "received empty access token", 1⟩
          else
            let expiresIn : Int := if tr.expires_in = 0 then 3600 else tr.expires_in
            ⟨⟨tr.access_token, now + (expiresIn - refreshBuffer)⟩, .ok tr.access_token, 1⟩

/-- Shallow embedding of tokenManager.getToken (token.go lines 50-62):
the fast path under the read lock, falling back to refreshToken. -/
def getToken (s : TMState) (now : Int) (oc : HttpResult) : TokenResult :=
  if s.accessToken ≠ "" ∧ now < s.expiresAt then
    ⟨s, .ok s.accessToken, 0⟩
  else
    refreshToken s now oc

/-- A valid cached token makes getToken return it with no state change and
no network call. Shared helper for the claims about the fast path. -/
theorem getToken_of_valid (s : TMState) (now : Int) (oc : HttpResult)
    (hTok : s.accessToken ≠ "") (hNow : now < s.expiresAt) :
    getToken s now oc = ⟨s, .ok s.accessToken, 0⟩ := by
  unfold getToken
  rw [if_pos ⟨hTok, hNow⟩]

/-- A valid cached token makes refreshToken hit the double-check and return
it with no state change and no network call. -/
theorem refreshToken_of_valid (s : TMState) (now : Int) (oc : HttpResult)
    (hTok : s.accessToken ≠ "") (hNow : now < s.expiresAt) :
    refreshToken s now oc = ⟨s, .ok s.accessToken, 0⟩ := by
  unfold refreshToken
  rw [if_pos ⟨hTok, hNow⟩]

/-- A successful refreshToken stores the very token it returns, and that
token is non-empty. -/
theorem refreshToken_ok_inv (s : TMState) (now : Int) (oc : HttpResult) (tok : String)
    (h : (refreshToken s now oc).result = .ok tok) :
    (refreshToken s now oc).state.accessToken = tok ∧ tok ≠ "" := by
  unfold refreshToken at h ⊢
  by_cases hv : s.accessToken ≠ "" ∧ now < s.expiresAt
  · rw [if_pos hv] at h ⊢
    simp only [Except.ok.injEq] at h
    subst h
    exact ⟨rfl, hv.1⟩
  · rw [if_neg hv] at h ⊢
    cases oc with
    | netErr => simp at h
    | resp status body =>
      simp only at h ⊢
      by_cases hs : status ≠ 200
      · rw [if_pos hs] at h
        simp at h
      · rw [if_neg hs] at h ⊢
        cases body with
        | malformed => simp at h
        | decoded tr =>
          simp only at h ⊢
          by_cases ht : tr.access_token = ""
          · rw [if_pos ht] at h
            simp at h
          · rw [if_neg ht] at h ⊢
            simp only [Except.ok.injEq] at h
            subst h
            exact ⟨rfl, ht⟩

/-- C1: For every call to getToken, if the cached accessToken is non-empty
and the current time is before expiresAt, getToken returns the cached token
and performs no network I/O and no mutation of the cached token or expiry. -/
theorem getToken_fast_path (s : TMState) (now : Int) (oc : HttpResult)
    (hTok : s.accessToken ≠ "") (hNow : now < s.expiresAt) :
    (getToken s now oc).result = .ok s.accessToken ∧
    (getToken s now oc).netCalls = 0 ∧
    (getToken s now oc).state = s := by
  rw [getToken_of_valid s now oc hTok hNow]
  exact ⟨rfl, rfl, rfl⟩

/-- Witness for C1 at a concrete cached state and clock. -/
theorem getToken_fast_path_witness :
    (getToken ⟨"tok", 100⟩ 50 .netErr).result = .ok "tok" ∧
    (getToken ⟨"tok", 100⟩ 50 .netErr).netCalls = 0 ∧
    (getToken ⟨"tok", 100⟩ 50 .netErr).state = ⟨"tok", 100⟩ :=
  getToken_fast_path ⟨"tok", 100⟩ 50 .netErr (by decide) (by decide)

/-- C3: Every failing refresh returns an error and leaves the cached token
and expiry exactly as they were, and the token string and expiry are only
ever replaced together: the state after refreshToken is either untouched or
carries the full new token-and-expiry pair of a successful response. -/
theorem refreshToken_failure_frame (s : TMState) (now : Int) (oc : HttpResult) :
    (∀ msg, (refreshToken s now oc).result = .error msg → (refreshToken s now oc).state = s) ∧
    ((refreshToken s now oc).state = s ∨
      ∃ tr : TokenResponse, oc = .resp 200 (.decoded tr) ∧ tr.access_token ≠ "" ∧
        (refreshToken s now oc).state =
          ⟨tr.access_token,
            now + ((if tr.expires_in = 0 then 3600 else tr.expires_in) - refreshBuffer)⟩) := by
  unfold refreshToken
  split
  · exact ⟨fun msg h => rfl, Or.inl rfl⟩
  · match oc with
    | .netErr => exact ⟨fun msg h => rfl, Or.inl rfl⟩
    | .resp status body =>
      simp only
      split
      · exact ⟨fun msg h => rfl, Or.inl rfl⟩
      · rename_i hstatus
        have h200 : status = 200 := by omega
        match body with
        | .malformed => exact ⟨fun msg h => rfl, Or.inl rfl⟩
        | .decoded tr =>
          simp only
          split
          · exact ⟨fun msg h => rfl, Or.inl rfl⟩
          · rename_i hne
            refine ⟨fun msg h => by simp at h, Or.inr ⟨tr, by rw [h200], hne, rfl⟩⟩

/-- Witness for C3: a refresh that fails with a non-200 status leaves the
concrete cached state untouched. -/
theorem refreshToken_failure_frame_witness :
    (refreshToken ⟨"old", 10⟩ 99 (.resp 503 .malformed)).state = ⟨"old", 10⟩ :=
  (refreshToken_failure_frame ⟨"old", 10⟩ 99 (.resp 503 .malformed)).1
    "token request failed with status 503" rfl

/-- C4: On a successful token response stored from an invalid cache, an
absent-or-zero expires_in yields expiresAt = now + 55 minutes, and a
non-zero expires_in yields expiresAt = now + expires_in - 5 minutes. -/
theorem refreshToken_expiry_window (s : TMState) (now : Int) (tr : TokenResponse)
    (hInv : ¬(s.accessToken ≠ "" ∧ now < s.expiresAt))
    (hTok : tr.access_token ≠ "") :
    (tr.expires_in = 0 →
      (refreshToken s now (.resp 200 (.decoded tr))).state.expiresAt = now + 55 * 60) ∧
    (tr.expires_in ≠ 0 →
      (refreshToken s now (.resp 200 (.decoded tr))).state.expiresAt
        = now + tr.expires_in - 5 * 60) := by
  unfold refreshToken
  rw [if_neg hInv]
  simp only [ne_eq, not_true_eq_false, if_false, if_neg hTok]
  constructor
  · intro h0
    rw [if_pos h0]
    unfold refreshBuffer
    norm_num
  · intro hne
    rw [if_neg hne]
    unfold refreshBuffer
    ring

/-- Witness for C4: a response with expires_in = 0 stored at time 0 expires
at 3300 seconds, i.e. 55 minutes. -/
theorem refreshToken_expiry_window_witness :
    (refreshToken ⟨"", 0⟩ 0 (.resp 200 (.decoded ⟨"t", "Bearer", 0⟩))).state.expiresAt
      = 55 * 60 := by
  have h := refreshToken_expiry_window ⟨"", 0⟩ 0 ⟨"t", "Bearer", 0⟩ (by decide) (by decide)
  simpa using h.1 rfl

/-- One caller that lost the race past the fast path: it runs refreshToken
under the exclusive lock, serialized after the accumulator's state, and the
accumulator also counts the network calls performed so far. -/
def loserStep (acc : TMState × Nat) (e : Int × HttpResult) : TMState × Nat :=
  let r := refreshToken acc.1 e.1 e.2
  (r.state, acc.2 + r.netCalls)

/-- The serialized execution of a list of callers that all reached the
exclusive-lock section, each with its own clock reading and network
outcome, starting from state s: the final state and the total number of
network calls the callers performed. -/
def runLosers (s : TMState) (events : List (Int × HttpResult)) : TMState × Nat :=
  events.foldl loserStep (s, 0)

/-- Folding loserStep over callers whose clock readings all precede the
expiry of a non-empty cached token changes nothing and adds no calls. -/
theorem foldl_loserStep_of_valid (s0 : TMState) (hTok : s0.accessToken ≠ "")
    (events : List (Int × HttpResult)) (hev : ∀ e ∈ events, e.1 < s0.expiresAt) :
    ∀ n : Nat, events.foldl loserStep (s0, n) = (s0, n) := by
  induction events with
  | nil => intro n; rfl
  | cons e rest ih =>
    intro n
    have he : e.1 < s0.expiresAt := hev e (List.mem_cons_self e rest)
    have hrest : ∀ x ∈ rest, x.1 < s0.expiresAt :=
      fun x hx => hev x (List.mem_cons_of_mem e hx)
    have hstep : loserStep (s0, n) e = (s0, n) := by
      unfold loserStep
      rw [refreshToken_of_valid s0 e.1 e.2 hTok he]
      simp
    rw [List.foldl_cons, hstep]
    exact ih hrest n

/-- C2: After one refreshToken call that returns a token successfully (at
most one network request itself), every further caller entering the
exclusive-lock section before the stored expiry hits the double-check:
collectively they perform zero network requests, the cached state never
changes, and each of them returns the token the winner stored. -/
theorem single_refresh_per_cycle (s : TMState) (t0 : Int) (oc : HttpResult) (tok : String)
    (hwin : (refreshToken s t0 oc).result = .ok tok)
    (events : List (Int × HttpResult))
    (hev : ∀ e ∈ events, e.1 < (refreshToken s t0 oc).state.expiresAt) :
    (refreshToken s t0 oc).netCalls ≤ 1 ∧
    runLosers (refreshToken s t0 oc).state events = ((refreshToken s t0 oc).state, 0) ∧
    ∀ e ∈ events, (refreshToken (refreshToken s t0 oc).state e.1 e.2).result = .ok tok := by
  obtain ⟨hstore, hne⟩ := refreshToken_ok_inv s t0 oc tok hwin
  have hTok : (refreshToken s t0 oc).state.accessToken ≠ "" := by
    rw [hstore]; exact hne
  refine ⟨?_, ?_, ?_⟩
  · unfold refreshToken
    split
    · exact Nat.zero_le 1
    · cases oc with
      | netErr => exact Nat.le_refl 1
      | resp status body =>
        simp only
        split
        · exact Nat.le_refl 1
        · cases body with
          | malformed => exact Nat.le_refl 1
          | decoded tr =>
            simp only
            split
            · exact Nat.le_refl 1
            · exact Nat.le_refl 1
  · exact foldl_loserStep_of_valid _ hTok events hev 0
  · intro e he
    rw [refreshToken_of_valid _ e.1 e.2 hTok (hev e he)]
    simp only
    rw [hstore]

/-- Witness for C2: a concrete winner refresh at time 0 followed by two
losers inside the 55-minute window makes zero further calls and hands both
losers the stored token. -/
theorem single_refresh_per_cycle_witness :
    (refreshToken ⟨"", 0⟩ 0 (.resp 200 (.decoded ⟨"t", "Bearer", 0⟩))).netCalls ≤ 1 ∧
    runLosers (refreshToken ⟨"", 0⟩ 0 (.resp 200 (.decoded ⟨"t", "Bearer", 0⟩))).state
        [(100, .netErr), (200, .netErr)]
      = ((refreshToken ⟨"", 0⟩ 0 (.resp 200 (.decoded ⟨"t", "Bearer", 0⟩))).state, 0) ∧
    (refreshToken (refreshToken ⟨"", 0⟩ 0 (.resp 200 (.decoded ⟨"t", "Bearer", 0⟩))).state
        100 .netErr).result = .ok "t" :=
  ⟨(single_refresh_per_cycle ⟨"", 0⟩ 0 (.resp 200 (.decoded ⟨"t", "Bearer", 0⟩)) "t" rfl
      [(100, .netErr), (200, .netErr)] (by decide)).1,
   (single_refresh_per_cycle ⟨"", 0⟩ 0 (.resp 200 (.decoded ⟨"t", "Bearer", 0⟩)) "t" rfl
      [(100, .netErr), (200, .netErr)] (by decide)).2.1,
   (single_refresh_per_cycle ⟨"", 0⟩ 0 (.resp 200 (.decoded ⟨"t", "Bearer", 0⟩)) "t" rfl
      [(100, .netErr), (200, .netErr)] (by decide)).2.2 (100, .netErr) (by decide)⟩

/-! ## Public data model (types.go) -/

/-- Canonicalized USPS address (types.go). Go's zero value is the record of
empty strings, taken as the default of every field. -/
structure Address where
  Firm : String := ""
  StreetAddress : String := ""
  StreetAddressAbbreviation : String := ""
  SecondaryAddress : String := ""
  City : String := ""
  CityAbbreviation : String := ""
  State : String := ""
  ZIPCode : String := ""
  ZIPPlus4 : String := ""
  Urbanization : String := ""
  deriving Repr, DecidableEq

/-- Correction entry of a validation result, with the user-facing message
attached by convertResponse (client.go). -/
structure Correction where
  Code : String := ""
  Text : String := ""
  UserMessage : String := ""
  deriving Repr, DecidableEq

/-- Match entry of a validation result (types.go). -/
structure Match where
  Code : String := ""
  Text : String := ""
  deriving Repr, DecidableEq

/-- Additional address information (types.go). -/
structure AdditionalInfo where
  DeliveryPoint : String := ""
  CarrierRoute : String := ""
  DPVConfirmation : String := ""
  DPVCMRA : String := ""
  Business : String := ""
  CentralDeliveryPoint : String := ""
  Vacant : String := ""
  deriving Repr, DecidableEq

/-- Result of a validation call (types.go). A nil Go slice is the empty
list; the nil AdditionalInfo pointer is none. -/
structure ValidationResult where
  Address : Address := {}
  Corrections : List Correction := []
  Matches : List Match := []
  Warnings : List String := []
  AdditionalInfo : Option AdditionalInfo := none
  deriving Repr, DecidableEq

/-- Source of an API error (types.go). -/
structure ErrorSource where
  Parameter : String := ""
  Example : String := ""
  deriving Repr, DecidableEq

/-- Public error type of the library (types.go). The nil Source pointer is
none. -/
structure Error where
  Status : String := ""
  Code : String := ""
  Title : String := ""
  Detail : String := ""
  Source : Option ErrorSource := none
  deriving Repr, DecidableEq

/-- Embedding of the Error method of types.go lines 105-113: Detail when
non-empty, else Title when non-empty, else the fixed fallback string. -/
def Error.Error (e : Error) : String :=
  if e.Detail ≠ "" then e.Detail
  else if e.Title ≠ "" then e.Title
  else "USPS API error"

/-! ## Wire types of the generated transport (uspsinternal), as used by
client.go: every field the generated schema makes a pointer is an Option. -/

namespace uspsinternal

/-- Provider address payload (uspsinternal.DomesticAddress as read by
convertAddress). -/
structure DomesticAddress where
  StreetAddress : Option String := none
  StreetAddressAbbreviation : Option String := none
  SecondaryAddress : Option String := none
  City : Option String := none
  CityAbbreviation : Option String := none
  State : Option String := none
  ZIPCode : Option String := none
  ZIPPlus4 : Option String := none
  Urbanization : Option String := none
  deriving Repr, DecidableEq

/-- Provider additional-info payload as read by convertAdditionalInfo; the
enum-typed fields are carried as strings, matching the string() casts. -/
structure AddressAdditionalInfo where
  DeliveryPoint : Option String := none
  CarrierRoute : Option String := none
  DPVConfirmation : Option String := none
  DPVCMRA : Option String := none
  Business : Option String := none
  CentralDeliveryPoint : Option String := none
  Vacant : Option String := none
  deriving Repr, DecidableEq

/-- Provider correction entry as read by convertResponse. -/
structure CorrectionEntry where
  Code : Option String := none
  Text : Option String := none
  deriving Repr, DecidableEq

/-- Provider match entry as read by convertResponse. -/
structure MatchEntry where
  Code : Option String := none
  Text : Option String := none
  deriving Repr, DecidableEq

/-- Provider 200-response payload as read by convertResponse. -/
structure AddressResponse where
  Address : Option DomesticAddress := none
  Firm : Option String := none
  Corrections : Option (List CorrectionEntry) := none
  Matches : Option (List MatchEntry) := none
  Warnings : Option (List String) := none
  AdditionalInfo : Option AddressAdditionalInfo := none
  deriving Repr, DecidableEq

/-- Source block of a detailed provider sub-error. -/
structure ErrDetailSource where
  Parameter : Option String := none
  Example : Option String := none
  deriving Repr, DecidableEq

/-- Detailed provider sub-error, an element of the errors list. -/
structure ErrDetail where
  Title : Option String := none
  Detail : Option String := none
  Source : Option ErrDetailSource := none
  deriving Repr, DecidableEq

/-- Inner object of a provider structured error. -/
structure ErrInner where
  Code : Option String := none
  Message : Option String := none
  Errors : Option (List ErrDetail) := none
  deriving Repr, DecidableEq

/-- Provider structured error body (uspsinternal.ErrorMessage), whose Error
field is itself a pointer in the generated schema. -/
structure ErrorMessage where
  Error : Option ErrInner := none
  deriving Repr, DecidableEq

/-- Request parameters of the GetAddress call (uspsinternal
.GetAddressParams as written by ValidateAddress): street address and state
are plain strings, the optional fields are pointers. -/
structure GetAddressParams where
  StreetAddress : String := ""
  State : String := ""
  SecondaryAddress : Option String := none
  City : Option String := none
  ZIPCode : Option String := none
  Firm : Option String := none
  Urbanization : Option String := none
  deriving Repr, DecidableEq

end uspsinternal

/-! ## Response and error translation (client.go) -/

/-- Embedding of stringValue (client.go lines 366-371): safe dereference of
a string pointer. -/
def stringValue : Option String → String
  | none => ""
  | some s => s

/-- The fixed clarifying message substituted for correction code 32 when
the secondary address is present but unconfirmed (client.go line 382). -/
def secondaryUnconfirmedMsg : String :=
  "USPS does not have enough data to validate the secondary address. Please double check what you entered."

/-- Embedding of generateUserMessage (client.go lines 374-388). -/
def generateUserMessage (code text dpvConfirmation : String)
    (hasSecondaryAddress : Bool) : String :=
  if code = "32" then
    if dpvConfirmation = "D" then
      text
    else if dpvConfirmation = "S" ∧ hasSecondaryAddress then
      secondaryUnconfirmedMsg
    else
      text
  else
    text

/-- Embedding of convertAddress (client.go lines 241-285): each field of
the zero-valued result is overwritten only when the pointer is non-nil. -/
def convertAddress (addr : uspsinternal.DomesticAddress) (firm : Option String) : Address :=
  { Firm := firm.getD ""
    StreetAddress := addr.StreetAddress.getD ""
    StreetAddressAbbreviation := addr.StreetAddressAbbreviation.getD ""
    SecondaryAddress := addr.SecondaryAddress.getD ""
    City := addr.City.getD ""
    CityAbbreviation := addr.CityAbbreviation.getD ""
    State := addr.State.getD ""
    ZIPCode := addr.ZIPCode.getD ""
    ZIPPlus4 := addr.ZIPPlus4.getD ""
    Urbanization := addr.Urbanization.getD "" }

/-- Embedding of convertAdditionalInfo (client.go lines 288-320). -/
def convertAdditionalInfo (info : uspsinternal.AddressAdditionalInfo) : AdditionalInfo :=
  { DeliveryPoint := info.DeliveryPoint.getD ""
    CarrierRoute := info.CarrierRoute.getD ""
    DPVConfirmation := info.DPVConfirmation.getD ""
    DPVCMRA := info.DPVCMRA.getD ""
    Business := info.Business.getD ""
    CentralDeliveryPoint := info.CentralDeliveryPoint.getD ""
    Vacant := info.Vacant.getD "" }

/-- The DPV confirmation string convertResponse extracts for message
generation (client.go lines 185-188). -/
def dpvConfirmationOf (resp : uspsinternal.AddressResponse) : String :=
  match resp.AdditionalInfo with
  | some info => stringValue info.DPVConfirmation
  | none => ""

/-- The secondary-address presence flag convertResponse computes from the
response address (client.go line 191). -/
def hasSecondaryAddressOf (resp : uspsinternal.AddressResponse) : Bool :=
  match resp.Address with
  | some addr =>
    match addr.SecondaryAddress with
    | some s => s ≠ ""
    | none => false
  | none => false

/-- The corrections loop of convertResponse (client.go lines 194-209):
entries whose code and text are both empty are dropped, the rest carry the
generated user message. -/
def convertCorrections (cs : List uspsinternal.CorrectionEntry)
    (dpvConfirmation : String) (hasSecondaryAddress : Bool) : List Correction :=
  cs.filterMap fun c =>
    let code := stringValue c.Code
    let text := stringValue c.Text
    if code ≠ "" ∨ text ≠ "" then
      some { Code := code, Text := text
             UserMessage := generateUserMessage code text dpvConfirmation hasSecondaryAddress }
    else
      none

/-- The matches loop of convertResponse (client.go lines 212-225). -/
def convertMatches (ms : List uspsinternal.MatchEntry) : List Match :=
  ms.filterMap fun m =>
    let code := stringValue m.Code
    let text := stringValue m.Text
    if code ≠ "" ∨ text ≠ "" then
      some { Code := code, Text := text }
    else
      none

/-- Embedding of convertResponse (client.go lines 176-238). -/
def convertResponse (resp : uspsinternal.AddressResponse) : ValidationResult :=
  { Address :=
      match resp.Address with
      | some a => convertAddress a resp.Firm
      | none => {}
    Corrections :=
      match resp.Corrections with
      | some cs => convertCorrections cs (dpvConfirmationOf resp) (hasSecondaryAddressOf resp)
      | none => []
    Matches :=
      match resp.Matches with
      | some ms => convertMatches ms
      | none => []
    Warnings := resp.Warnings.getD []
    AdditionalInfo := resp.AdditionalInfo.map convertAdditionalInfo }

/-- Embedding of convertError (client.go lines 323-363), with the nil
receiver pointer modelled as none. The sequential field updates of the Go
body are the chained record updates. -/
def convertError (errResp : Option uspsinternal.ErrorMessage) : Error :=
  match errResp with
  | none => { Title := "Unknown error" }
  | some em =>
    match em.Error with
    | none => { Title := "Unknown error" }
    | some e =>
      let r0 : Error := {}
      let r1 :=
        match e.Code with
        | some c => { r0 with Code := c, Status := c }
        | none => r0
      let r2 :=
        match e.Message with
        | some m => { r1 with Detail := m, Title := m }
        | none => r1
      match e.Errors with
      | some (f :: _) =>
        let r3 :=
          match f.Detail with
          | some d => { r2 with Detail := d }
          | none => r2
        let r4 :=
          match f.Title with
          | some t => { r3 with Title := t }
          | none => r3
        (match f.Source with
          | some src =>
            { r4 with Source := some { Parameter := src.Parameter.getD ""
                                       Example := src.Example.getD "" } }
          | none => r4)
      | some [] => r2
      | none => r2

/-! ## ValidateAddress (client.go lines 70-168) -/

/-- Error returned by validateAddress: either a plain formatted message or
a structured public Error, mirroring Go's two error shapes. -/
inductive ValErr
  | strErr (msg : String)
  | apiErr (e : Error)
  deriving Repr, DecidableEq

/-- Embedding of strings.ToUpper as used on the two-letter state: the
character-wise uppercase map over the string's characters. -/
def stringsToUpper (s : String) : String :=
  ⟨s.data.map Char.toUpper⟩

/-- The input validation and parameter construction of ValidateAddress
(client.go lines 71-108): the nil check, the required StreetAddress, the
two checks on State, the uppercasing, and the five optional fields set only
when non-empty. Go's len over a string counts UTF-8 bytes. -/
def buildParams (address : Option Address) :
    Except ValErr uspsinternal.GetAddressParams :=
  match address with
  | none => .error (.strErr "address cannot be nil")
  | some a =>
    if a.StreetAddress = "" then
      .error (.strErr "street address is required")
    else if a.State = "" then
      .error (.strErr "2 letter state abbreviation is required")
    else if a.State.utf8ByteSize ≠ 2 then
      .error (.strErr "2 letter state abbreviation is required")
    else
      .ok
        { StreetAddress := a.StreetAddress
          State := stringsToUpper a.State
          SecondaryAddress := if a.SecondaryAddress ≠ "" then some a.SecondaryAddress else none
          City := if a.City ≠ "" then some a.City else none
          ZIPCode := if a.ZIPCode ≠ "" then some a.ZIPCode else none
          Firm := if a.Firm ≠ "" then some a.Firm else none
          Urbanization := if a.Urbanization ≠ "" then some a.Urbanization else none }

/-- The typed transport response of GetAddressWithResponse: the HTTP status
and the parsed bodies the generated client exposes. -/
structure GetAddressResponse where
  statusCode : Nat
  JSON200 : Option uspsinternal.AddressResponse := none
  JSON400 : Option uspsinternal.ErrorMessage := none
  JSON401 : Option uspsinternal.ErrorMessage := none
  JSON403 : Option uspsinternal.ErrorMessage := none
  JSON404 : Option uspsinternal.ErrorMessage := none
  JSON429 : Option uspsinternal.ErrorMessage := none
  JSON503 : Option uspsinternal.ErrorMessage := none
  deriving Repr, DecidableEq

/-- Outcome of one dispatch through the external transport: a failure
before any status is obtained, or a typed response. -/
inductive TransportOutcome
  | reqErr
  | ok (resp : GetAddressResponse)
  deriving Repr, DecidableEq

/-- The first recognized structured error body, in the order client.go
checks them (lines 140-157). -/
def errBody (resp : GetAddressResponse) : Option uspsinternal.ErrorMessage :=
  (resp.JSON400).or ((resp.JSON401).or ((resp.JSON403).or
    ((resp.JSON404).or ((resp.JSON429).or resp.JSON503))))

/-- Full observable outcome of one ValidateAddress call: the returned value
or error, the number of requests dispatched to the validation transport,
and the value the caller's Address points to after the call (the Go body
never writes through the pointer, and the embedding threads it through
every branch). -/
structure ValidateOutcome where
  result : Except ValErr (List ValidationResult)
  netCalls : Nat
  addrAfter : Option Address
  deriving Repr

/-- Embedding of ValidateAddress (client.go lines 70-168). The transport is
a parameter so the dispatch of client.go line 127 is the single point where
it is consulted; everything after mirrors the status handling. -/
def validateAddress (address : Option Address)
    (transport : uspsinternal.GetAddressParams → TransportOutcome) : ValidateOutcome :=
  match buildParams address with
  | .error e => ⟨.error e, 0, address⟩
  | .ok params =>
    match transport params with
    | .reqErr => ⟨.error (.strErr "USPS API request failed"), 1, address⟩
    | .ok resp =>
      if resp.statusCode ≠ 200 then
        match errBody resp with
        | some em => ⟨.error (.apiErr (convertError (some em))), 1, address⟩
        | none =>
          ⟨.error (.strErr ("unexpected status code: " ++ toString resp.statusCode)), 1, address⟩
      else
        match resp.JSON200 with
        | none => ⟨.error (.strErr "unexpected empty response"), 1, address⟩
        | some body => ⟨.ok [convertResponse body], 1, address⟩

/-- C5: A nil address, an empty StreetAddress, or a State that is empty or
not exactly two bytes long makes ValidateAddress return an error with zero
network calls; and whenever parameter construction succeeds, the State sent
is the uppercased input State. -/
theorem validateAddress_preconditions (address : Option Address)
    (transport : uspsinternal.GetAddressParams → TransportOutcome) :
    ((address = none ∨ ∃ a, address = some a ∧
        (a.StreetAddress = "" ∨ a.State = "" ∨ a.State.utf8ByteSize ≠ 2)) →
      (∃ e, (validateAddress address transport).result = .error e) ∧
      (validateAddress address transport).netCalls = 0) ∧
    (∀ a p, address = some a → buildParams address = .ok p →
      p.State = stringsToUpper a.State) := by
  constructor
  · rintro (rfl | ⟨a, rfl, hbad⟩)
    · exact ⟨⟨.strErr "address cannot be nil", rfl⟩, rfl⟩
    · by_cases hstreet : a.StreetAddress = ""
      · refine ⟨⟨.strErr "street address is required", ?_⟩, ?_⟩ <;>
          simp [validateAddress, buildParams, hstreet]
      · have hbad' : a.State = "" ∨ a.State.utf8ByteSize ≠ 2 := by
          rcases hbad with h | h | h
          · exact absurd h hstreet
          · exact Or.inl h
          · exact Or.inr h
        by_cases hstate : a.State = ""
        · refine ⟨⟨.strErr "2 letter state abbreviation is required", ?_⟩, ?_⟩ <;>
            simp [validateAddress, buildParams, hstreet, hstate]
        · have hlen : a.State.utf8ByteSize ≠ 2 := by
            rcases hbad' with h | h
            · exact absurd h hstate
            · exact h
          refine ⟨⟨.strErr "2 letter state abbreviation is required", ?_⟩, ?_⟩ <;>
            simp [validateAddress, buildParams, hstreet, hstate, hlen]
  · intro a p ha h
    subst ha
    simp only [buildParams] at h
    split at h
    · simp at h
    · split at h
      · simp at h
      · split at h
        · simp at h
        · simp only [Except.ok.injEq] at h
          subst h
          rfl

/-- Witness for C5: the nil address fails with zero network calls. -/
theorem validateAddress_preconditions_witness :
    (validateAddress none (fun _ => .reqErr)).netCalls = 0 :=
  ((validateAddress_preconditions none (fun _ => .reqErr)).1 (Or.inl rfl)).2

/-- An optional parameter built by the if-non-empty rule is present exactly
for non-empty input and then carries the input value, never the empty
string. -/
theorem optField_spec (s : String) :
    ((if s ≠ "" then some s else none).isSome ↔ s ≠ "") ∧
    (∀ v, (if s ≠ "" then some s else none) = some v → v = s ∧ v ≠ "") := by
  by_cases h : s = "" <;> simp [h]

/-- C6: Each optional field of the outbound request (SecondaryAddress,
City, ZIPCode, Firm, Urbanization) is present iff the input field is
non-empty, then equals the input value, and is never an empty-string
parameter. -/
theorem buildParams_optional_fields (a : Address) (p : uspsinternal.GetAddressParams)
    (h : buildParams (some a) = .ok p) :
    ((p.SecondaryAddress.isSome ↔ a.SecondaryAddress ≠ "") ∧
      ∀ v, p.SecondaryAddress = some v → v = a.SecondaryAddress ∧ v ≠ "") ∧
    ((p.City.isSome ↔ a.City ≠ "") ∧ ∀ v, p.City = some v → v = a.City ∧ v ≠ "") ∧
    ((p.ZIPCode.isSome ↔ a.ZIPCode ≠ "") ∧ ∀ v, p.ZIPCode = some v → v = a.ZIPCode ∧ v ≠ "") ∧
    ((p.Firm.isSome ↔ a.Firm ≠ "") ∧ ∀ v, p.Firm = some v → v = a.Firm ∧ v ≠ "") ∧
    ((p.Urbanization.isSome ↔ a.Urbanization ≠ "") ∧
      ∀ v, p.Urbanization = some v → v = a.Urbanization ∧ v ≠ "") := by
  simp only [buildParams] at h
  split at h
  · simp at h
  · split at h
    · simp at h
    · split at h
      · simp at h
      · simp only [Except.ok.injEq] at h
        subst h
        exact ⟨optField_spec a.SecondaryAddress, optField_spec a.City,
          optField_spec a.ZIPCode, optField_spec a.Firm, optField_spec a.Urbanization⟩

/-- Witness for C6 at a concrete address with only City among the optional
fields set: the sent City parameter is present and equals the non-empty
input value. -/
theorem buildParams_optional_fields_witness :
    ((uspsinternal.GetAddressParams.mk "1 Main St" "CA" none (some "Reno") none none
        none).City.isSome ↔
      (Address.mk "" "1 Main St" "" "" "Reno" "" "ca" "" "" "").City ≠ "") ∧
    ("Reno" = (Address.mk "" "1 Main St" "" "" "Reno" "" "ca" "" "" "").City ∧ "Reno" ≠ "") :=
  ⟨(buildParams_optional_fields (Address.mk "" "1 Main St" "" "" "Reno" "" "ca" "" "" "")
      (uspsinternal.GetAddressParams.mk "1 Main St" "CA" none (some "Reno") none none none)
      (by rfl)).2.1.1,
   (buildParams_optional_fields (Address.mk "" "1 Main St" "" "" "Reno" "" "ca" "" "" "")
      (uspsinternal.GetAddressParams.mk "1 Main St" "CA" none (some "Reno") none none none)
      (by rfl)).2.1.2 "Reno" rfl⟩

/-- C9: ValidateAddress never mutates the caller's Address: the value the
input reference denotes after the call equals the value passed in, on every
path. -/
theorem validateAddress_no_mutation (address : Option Address)
    (transport : uspsinternal.GetAddressParams → TransportOutcome) :
    (validateAddress address transport).addrAfter = address := by
  unfold validateAddress
  repeat' split
  all_goals rfl

/-- Witness for C9 at a concrete address and a failing transport. -/
theorem validateAddress_no_mutation_witness :
    (validateAddress (some { StreetAddress := "1 Main St", State := "ca" })
        (fun _ => .reqErr)).addrAfter
      = some { StreetAddress := "1 Main St", State := "ca" } :=
  validateAddress_no_mutation (some { StreetAddress := "1 Main St", State := "ca" })
    (fun _ => .reqErr)

/-- The secondary-address flag convertResponse computes agrees with the
canonical address carrying a non-empty secondary address. -/
theorem hasSecondaryAddressOf_iff (resp : uspsinternal.AddressResponse) :
    hasSecondaryAddressOf resp = true ↔
      (convertResponse resp).Address.SecondaryAddress ≠ "" := by
  unfold hasSecondaryAddressOf convertResponse convertAddress
  cases hra : resp.Address with
  | none => simp
  | some a =>
    cases hsa : a.SecondaryAddress with
    | none => simp [hsa]
    | some s => simp [hsa]

/-- Every correction kept by the corrections loop carries the message
generateUserMessage computes from its own code and text. -/
theorem mem_convertCorrections (cs : List uspsinternal.CorrectionEntry)
    (dpv : String) (hasSec : Bool) (c : Correction)
    (hc : c ∈ convertCorrections cs dpv hasSec) :
    c.UserMessage = generateUserMessage c.Code c.Text dpv hasSec := by
  unfold convertCorrections at hc
  rw [List.mem_filterMap] at hc
  obtain ⟨w, _, hfw⟩ := hc
  simp only at hfw
  by_cases hne : stringValue w.Code ≠ "" ∨ stringValue w.Text ≠ ""
  · rw [if_pos hne] at hfw
    simp only [Option.some.injEq] at hfw
    cases hfw
    rfl
  · rw [if_neg hne] at hfw
    simp at hfw

/-- C7: For a correction with code 32 in a converted response, a DPV
confirmation of D passes the provider text through, an S confirmation with
a non-empty secondary address in the canonical result substitutes the fixed
clarifying message, and every other case passes the provider text
through. -/
theorem correction32_user_message (resp : uspsinternal.AddressResponse) (c : Correction)
    (hc : c ∈ (convertResponse resp).Corrections) (h32 : c.Code = "32") :
    (dpvConfirmationOf resp = "D" → c.UserMessage = c.Text) ∧
    (dpvConfirmationOf resp = "S" → (convertResponse resp).Address.SecondaryAddress ≠ "" →
      c.UserMessage = secondaryUnconfirmedMsg) ∧
    (dpvConfirmationOf resp ≠ "D" →
      ¬(dpvConfirmationOf resp = "S" ∧ (convertResponse resp).Address.SecondaryAddress ≠ "") →
      c.UserMessage = c.Text) := by
  have hCorr : (convertResponse resp).Corrections =
      match resp.Corrections with
      | some cs => convertCorrections cs (dpvConfirmationOf resp) (hasSecondaryAddressOf resp)
      | none => [] := rfl
  rw [hCorr] at hc
  cases hcs : resp.Corrections with
  | none =>
    rw [hcs] at hc
    simp at hc
  | some cs =>
    rw [hcs] at hc
    have hmsg := mem_convertCorrections cs _ _ c hc
    refine ⟨?_, ?_, ?_⟩
    · intro hD
      rw [hmsg]
      unfold generateUserMessage
      rw [if_pos h32, if_pos hD]
    · intro hS hsec
      have hsec' : hasSecondaryAddressOf resp = true :=
        (hasSecondaryAddressOf_iff resp).mpr hsec
      rw [hmsg]
      unfold generateUserMessage
      rw [if_pos h32, if_neg (by simp [hS]), if_pos (by simp [hS, hsec'])]
    · intro hnD hnSsec
      rw [hmsg]
      unfold generateUserMessage
      rw [if_pos h32, if_neg hnD, if_neg ?_]
      rintro ⟨hS, hsec⟩
      exact hnSsec ⟨hS, (hasSecondaryAddressOf_iff resp).mp hsec⟩

/-- Witness for C7: a stubbed response with correction code 32, DPV
confirmation S and a non-empty secondary address in the result yields the
fixed clarifying message, not the provider text. -/
theorem correction32_user_message_witness :
    (Correction.mk "32" "orig" secondaryUnconfirmedMsg).UserMessage
      = secondaryUnconfirmedMsg :=
  (correction32_user_message
    { Address := some { SecondaryAddress := some "APT 2" }
      Corrections := some [{ Code := some "32", Text := some "orig" }]
      AdditionalInfo := some { DPVConfirmation := some "S" } }
    (Correction.mk "32" "orig" secondaryUnconfirmedMsg)
    (by decide) rfl).2.1 rfl (by decide)

/-- Closed form of convertError on a present inner error, by cases on the
sub-error list. -/
theorem convertError_some_eq (em : uspsinternal.ErrorMessage) (e : uspsinternal.ErrInner)
    (hem : em.Error = some e) :
    convertError (some em) =
      match e.Errors with
      | some (f :: _) =>
        { Status := e.Code.getD "", Code := e.Code.getD ""
          Title := f.Title.getD (e.Message.getD "")
          Detail := f.Detail.getD (e.Message.getD "")
          Source := f.Source.map fun src =>
            { Parameter := src.Parameter.getD "", Example := src.Example.getD "" } }
      | _ =>
        { Status := e.Code.getD "", Code := e.Code.getD ""
          Title := e.Message.getD "", Detail := e.Message.getD ""
          Source := none } := by
  simp only [convertError]
  rw [hem]
  obtain ⟨cd, ms, errs⟩ := e
  rcases cd with _ | c <;> rcases ms with _ | m <;>
    rcases errs with _ | ⟨_ | ⟨f, rest⟩⟩ <;>
    first
      | rfl
      | (obtain ⟨ft, fd, fs⟩ := f
         rcases ft with _ | t <;> rcases fd with _ | d <;> rcases fs with _ | src <;> rfl)

/-- C8: The translated public Error takes Title, Detail and Source from the
first detailed sub-error when the errors list is present and non-empty,
each field only when present with the top-level message as its fallback,
and otherwise falls back to the top-level code and message. -/
theorem convertError_first_suberror (em : uspsinternal.ErrorMessage)
    (e : uspsinternal.ErrInner) (hem : em.Error = some e) :
    ((convertError (some em)).Code = e.Code.getD "" ∧
      (convertError (some em)).Status = e.Code.getD "") ∧
    (∀ f rest, e.Errors = some (f :: rest) →
      (convertError (some em)).Title = f.Title.getD (e.Message.getD "") ∧
      (convertError (some em)).Detail = f.Detail.getD (e.Message.getD "") ∧
      (convertError (some em)).Source = f.Source.map fun src =>
        ({ Parameter := src.Parameter.getD "", Example := src.Example.getD "" } : ErrorSource)) ∧
    ((e.Errors = none ∨ e.Errors = some []) →
      (convertError (some em)).Title = e.Message.getD "" ∧
      (convertError (some em)).Detail = e.Message.getD "" ∧
      (convertError (some em)).Source = none) := by
  rw [convertError_some_eq em e hem]
  rcases hE : e.Errors with _ | ⟨_ | ⟨f, rest⟩⟩
  · refine ⟨⟨rfl, rfl⟩, ?_, ?_⟩
    · intro f' rest' h
      simp at h
    · intro _
      exact ⟨rfl, rfl, rfl⟩
  · refine ⟨⟨rfl, rfl⟩, ?_, ?_⟩
    · intro f' rest' h
      simp at h
    · intro _
      exact ⟨rfl, rfl, rfl⟩
  · refine ⟨⟨rfl, rfl⟩, ?_, ?_⟩
    · intro f' rest' h
      simp only [Option.some.injEq, List.cons.injEq] at h
      obtain ⟨hf, -⟩ := h
      subst hf
      exact ⟨rfl, rfl, rfl⟩
    · rintro (h | h) <;> simp at h

/-- Witness for C8: a stubbed structured 401 body whose first sub-error
carries its own title and detail produces an Error exposing exactly them. -/
theorem convertError_first_suberror_witness :
    (convertError (some
        { Error := some
            { Code := some "401", Message := some "Unauthorized"
              Errors := some [{ Title := some "Bad key", Detail := some "The key expired"
                                Source := some { Parameter := some "apikey", Example := none } }] } })).Title
        = "Bad key" ∧
    (convertError (some
        { Error := some
            { Code := some "401", Message := some "Unauthorized"
              Errors := some [{ Title := some "Bad key", Detail := some "The key expired"
                                Source := some { Parameter := some "apikey", Example := none } }] } })).Detail
        = "The key expired" := by
  have h := (convertError_first_suberror
    { Error := some
        { Code := some "401", Message := some "Unauthorized"
          Errors := some [{ Title := some "Bad key", Detail := some "The key expired"
                            Source := some { Parameter := some "apikey", Example := none } }] } }
    { Code := some "401", Message := some "Unauthorized"
      Errors := some [{ Title := some "Bad key", Detail := some "The key expired"
                        Source := some { Parameter := some "apikey", Example := none } }] }
    rfl).2.1
    { Title := some "Bad key", Detail := some "The key expired"
      Source := some { Parameter := some "apikey", Example := none } } [] rfl
  exact ⟨h.1, h.2.1⟩

/-- C10: The Error method returns Detail when non-empty, else Title when
non-empty, else the fixed fallback; and convertError on a nil response or a
nil inner error produces the Unknown error title. -/
theorem error_method_and_unknown (e : Error) (em : uspsinternal.ErrorMessage)
    (hem : em.Error = none) :
    (e.Detail ≠ "" → e.Error = e.Detail) ∧
    (e.Detail = "" → e.Title ≠ "" → e.Error = e.Title) ∧
    (e.Detail = "" → e.Title = "" → e.Error = "USPS API error") ∧
    (convertError none).Title = "Unknown error" ∧
    (convertError (some em)).Title = "Unknown error" := by
  refine ⟨?_, ?_, ?_, rfl, ?_⟩
  · intro h
    unfold Error.Error
    rw [if_pos h]
  · intro h1 h2
    unfold Error.Error
    rw [if_neg (by simp [h1]), if_pos h2]
  · intro h1 h2
    unfold Error.Error
    rw [if_neg (by simp [h1]), if_neg (by simp [h2])]
  · simp only [convertError]
    rw [hem]

/-- Witness for C10: an Error with empty Detail and non-empty Title renders
its Title. -/
theorem error_method_and_unknown_witness :
    Error.Error { Title := "Invalid configuration" } = "Invalid configuration" :=
  (error_method_and_unknown { Title := "Invalid configuration" } { Error := none } rfl).2.1
    rfl (by decide)

end USPSAddr
